import Mathlib

/-!
Verification of the COLMAP camera-model registry (`src/base/camera_models.cc`).

Parameter vectors hold `double` values; they are embedded as lists of
rationals, which model exactly the arithmetic the code performs here
(halving an integer, comparisons, division by the image dimension).
The variant table, the per-variant `HasBogusParams` predicate, and the
default of the `CAMERA_MODEL_SWITCH_CASES` switch macro live in
`base/camera_models.h`, which is not part of the sources; they are modelled
from the specification as marked below. Per the specification, only the
Initializer fails on an unknown id (sections 4.3 and 7); every lookup and
validator degrades to the sentinel value visible after its switch.
-/

namespace Colmap

/-- A camera-model variant: the static metadata the header declares for each
camera-model struct (id, name, parameter count, description, and the three
index groups into the parameter vector). -/
structure CameraModel where
  model_id : Int
  model_name : String
  num_params : Nat
  params_info : String
  focal_length_idxs : List Nat
  principal_point_idxs : List Nat
  extra_params_idxs : List Nat
deriving DecidableEq

/-- Modelled from the spec: the pinhole-style variant of the missing header
`base/camera_models.h` — "id 0, 4 params `[fx, fy, cx, cy]`, focal idxs
`{0,1}`, principal idxs `{2,3}`, no extra params". -/
def PinholeCameraModel : CameraModel :=
  { model_id := 0
    model_name := "PINHOLE"
    num_params := 4
    params_info := "fx, fy, cx, cy"
    focal_length_idxs := [0, 1]
    principal_point_idxs := [2, 3]
    extra_params_idxs := [] }

/-- Modelled from the spec: a second registered variant of the missing header,
with a single focal length (3 params `[f, cx, cy]`, focal idx `{0}`,
principal idxs `{1,2}`, no extra params). -/
def SimplePinholeCameraModel : CameraModel :=
  { model_id := 1
    model_name := "SIMPLE_PINHOLE"
    num_params := 3
    params_info := "f, cx, cy"
    focal_length_idxs := [0]
    principal_point_idxs := [1, 2]
    extra_params_idxs := [] }

/-- Modelled from the spec: the distortion-bearing variant of the missing
header — "a distortion-bearing variant (id 2, extra idx `{4}`)": 5 params
`[fx, fy, cx, cy, k]`, focal idxs `{0,1}`, principal idxs `{2,3}`, extra
idx `{4}`. -/
def RadialCameraModel : CameraModel :=
  { model_id := 2
    model_name := "RADIAL"
    num_params := 5
    params_info := "fx, fy, cx, cy, k"
    focal_length_idxs := [0, 1]
    principal_point_idxs := [2, 3]
    extra_params_idxs := [4] }

/-- Modelled from the spec: the Model Variant Table of the missing header
(`CAMERA_MODEL_CASES`), the closed set of registered variants that every
switch in `camera_models.cc` enumerates. -/
def CAMERA_MODELS : List CameraModel :=
  [PinholeCameraModel, SimplePinholeCameraModel, RadialCameraModel]

/-- Modelled from the spec: the reserved sentinel id of the missing header
denoting "no such model" (`kInvalidCameraModelId`); section 8 fixes
`IdToName(-1) == "INVALID_CAMERA_MODEL"`. -/
def kInvalidCameraModelId : Int := -1

/-- The dispatch every `switch (model_id)` over `CAMERA_MODEL_SWITCH_CASES`
in `camera_models.cc` performs: the unique variant whose `model_id` case
label matches, if any. -/
def findCameraModel (model_id : Int) : Option CameraModel :=
  CAMERA_MODELS.find? (fun m => m.model_id == model_id)

/-- Whether `model_id` matches some registered variant, i.e. whether some
case of the switch fires. -/
def isRegisteredModelId (model_id : Int) : Bool :=
  (findCameraModel model_id).isSome

/-- `CameraModelNameToId` (camera_models.cc lines 62-68): looks `model_name`
up in `CAMERA_MODEL_NAME_TO_ID` (built from the table, one entry per
variant) and returns `kInvalidCameraModelId` when absent. -/
def CameraModelNameToId (model_name : String) : Int :=
  match CAMERA_MODELS.find? (fun m => m.model_name == model_name) with
  | some m => m.model_id
  | none => kInvalidCameraModelId

/-- `CameraModelIdToName` (camera_models.cc lines 87-93): looks `model_id`
up in `CAMERA_MODEL_ID_TO_NAME` and returns `"INVALID_CAMERA_MODEL"` when
absent. -/
def CameraModelIdToName (model_id : Int) : String :=
  match findCameraModel model_id with
  | some m => m.model_name
  | none => "INVALID_CAMERA_MODEL"

/-- `std::vector<double>::resize(n)` on the params vector: keeps the first
`n` elements and value-initializes any new elements to `0.0`. -/
def resizeParams (l : List ℚ) (n : Nat) : List ℚ :=
  l.take n ++ List.replicate (n - l.length) 0

/-- The `for (const int idx : idxs) { (*params)[idx] = v; }` loops of
`CameraModelInitializeParams`: write `v` at every listed index, in order. -/
def setAllIdxs (params : List ℚ) (idxs : List Nat) (v : ℚ) : List ℚ :=
  idxs.foldl (fun p idx => p.set idx v) params

/-- The observable effect of one call to the `void`-returning
`CameraModelInitializeParams(..., std::vector<double>* params)`: whether the
call failed with the `InvalidModel` condition, and the final state of the
caller's in-out `params` vector. -/
structure InitializeParamsResult where
  invalid_model : Bool
  params : List ℚ
deriving DecidableEq

/-- Modelled from the spec: the default of the switch macro
`CAMERA_MODEL_SWITCH_CASES` of the absent header `base/camera_models.h` —
for the Initializer, an unknown `model_id` "fails with an `InvalidModel`
condition", surfaced loudly (spec sections 4.3 and 7). The failure fires at
the switch default, before any case body, so the caller's vector is still
exactly the one passed in. The registered-id cases are from
camera_models.cc lines 95-119, with the in-out `params` pointer made
explicit as state passing: resize to `num_params`, write `focal_length` at
every focal-length index, `width / 2.0` at the first principal-point index,
`height / 2.0` at the second, and `0` at every extra-params index. -/
def CameraModelInitializeParams (model_id : Int) (focal_length : ℚ)
    (width height : Nat) (params : List ℚ) : InitializeParamsResult :=
  match findCameraModel model_id with
  | some m =>
      let p0 := resizeParams params m.num_params
      let p1 := setAllIdxs p0 m.focal_length_idxs focal_length
      let p2 := p1.set (m.principal_point_idxs.getD 0 0) ((width : ℚ) / 2)
      let p3 := p2.set (m.principal_point_idxs.getD 1 0) ((height : ℚ) / 2)
      { invalid_model := false
        params := setAllIdxs p3 m.extra_params_idxs 0 }
  | none => { invalid_model := true, params := params }

/-- `CameraModelParamsInfo` (camera_models.cc lines 121-134): the variant's
`params_info` on a matching case, and the fall-through value
`"Camera model does not exist"` otherwise. -/
def CameraModelParamsInfo (model_id : Int) : String :=
  match findCameraModel model_id with
  | some m => m.params_info
  | none => "Camera model does not exist"

/-- `CameraModelFocalLengthIdxs` (camera_models.cc lines 136-149): the
variant's `focal_length_idxs` on a matching case, the empty vector
otherwise. -/
def CameraModelFocalLengthIdxs (model_id : Int) : List Nat :=
  match findCameraModel model_id with
  | some m => m.focal_length_idxs
  | none => []

/-- `CameraModelPrincipalPointIdxs` (camera_models.cc lines 151-164): the
variant's `principal_point_idxs` on a matching case, the empty vector
otherwise. -/
def CameraModelPrincipalPointIdxs (model_id : Int) : List Nat :=
  match findCameraModel model_id with
  | some m => m.principal_point_idxs
  | none => []

/-- `CameraModelExtraParamsIdxs` (camera_models.cc lines 166-179): the
variant's `extra_params_idxs` on a matching case, the empty vector
otherwise. -/
def CameraModelExtraParamsIdxs (model_id : Int) : List Nat :=
  match findCameraModel model_id with
  | some m => m.extra_params_idxs
  | none => []

/-- `CameraModelVerifyParams` (camera_models.cc lines 181-197): on a matching
case, true exactly when `params.size() == num_params`; every other path
reaches the trailing `return false`. -/
def CameraModelVerifyParams (model_id : Int) (params : List ℚ) : Bool :=
  match findCameraModel model_id with
  | some m => params.length == m.num_params
  | none => false

/-- Modelled from the spec: the per-variant static `HasBogusParams` predicate
of the missing header `base/camera_models.h`, following section 4.5: with
`max_dim = max(width, height)`, the parameters are bogus when some
focal-length slot has `params[idx] / max_dim` below the minimum or above the
maximum ratio, or some extra-params slot exceeds `max_extra_param` in
absolute value. -/
def modelHasBogusParams (m : CameraModel) (params : List ℚ)
    (width height : Nat) (min_focal_length_ratio : ℚ)
    (max_focal_length_ratio : ℚ) (max_extra_param : ℚ) : Bool :=
  (m.focal_length_idxs.any fun idx =>
    let ratio := params.getD idx 0 / ((Nat.max width height : Nat) : ℚ)
    decide (ratio < min_focal_length_ratio) ||
      decide (max_focal_length_ratio < ratio)) ||
  (m.extra_params_idxs.any fun idx =>
    decide (max_extra_param < |params.getD idx 0|))

/-- `CameraModelHasBogusParams` (camera_models.cc lines 199-219): dispatches
to the matching variant's `HasBogusParams`; when no case matches, the switch
falls through to the trailing `return false`. -/
def CameraModelHasBogusParams (model_id : Int) (params : List ℚ)
    (width height : Nat) (min_focal_length_ratio : ℚ)
    (max_focal_length_ratio : ℚ) (max_extra_param : ℚ) : Bool :=
  match findCameraModel model_id with
  | some m =>
      modelHasBogusParams m params width height min_focal_length_ratio
        max_focal_length_ratio max_extra_param
  | none => false

/-! ### Helper lemmas -/

/-- Case analysis on membership in the variant table. -/
theorem mem_camera_models_cases {m : CameraModel} (hm : m ∈ CAMERA_MODELS) :
    m = PinholeCameraModel ∨ m = SimplePinholeCameraModel ∨
      m = RadialCameraModel := by
  simpa [CAMERA_MODELS] using hm

/-- The switch dispatch resolved for every possible `model_id`. -/
theorem findCameraModel_eq (model_id : Int) :
    findCameraModel model_id =
      if model_id = 0 then some PinholeCameraModel
      else if model_id = 1 then some SimplePinholeCameraModel
      else if model_id = 2 then some RadialCameraModel
      else none := by
  by_cases h0 : model_id = 0
  · subst h0; rfl
  · by_cases h1 : model_id = 1
    · subst h1; rfl
    · by_cases h2 : model_id = 2
      · subst h2; rfl
      · rw [if_neg h0, if_neg h1, if_neg h2]
        unfold findCameraModel
        rw [List.find?_eq_none]
        intro m hm
        rcases mem_camera_models_cases hm with rfl | rfl | rfl <;>
          simp [PinholeCameraModel, SimplePinholeCameraModel,
            RadialCameraModel] <;> omega

/-- Dispatching on a registered variant's own id finds that variant. -/
theorem findCameraModel_self {m : CameraModel} (hm : m ∈ CAMERA_MODELS) :
    findCameraModel m.model_id = some m := by
  rcases mem_camera_models_cases hm with rfl | rfl | rfl <;> rfl

/-- `resize(n)` always yields a vector of length `n`. -/
theorem resizeParams_length (l : List ℚ) (n : Nat) :
    (resizeParams l n).length = n := by
  simp [resizeParams]
  omega

/-- Writing every slot of a length-3 vector yields the written values. -/
theorem set_all_three (l : List ℚ) (hl : l.length = 3) (a b c : ℚ) :
    ((l.set 0 a).set 1 b).set 2 c = [a, b, c] := by
  rcases l with _ | ⟨x0, _ | ⟨x1, _ | ⟨x2, _ | ⟨x3, t⟩⟩⟩⟩ <;>
    simp_all [List.set]

/-- Writing every slot of a length-4 vector yields the written values. -/
theorem set_all_four (l : List ℚ) (hl : l.length = 4) (a b c d : ℚ) :
    (((l.set 0 a).set 1 b).set 2 c).set 3 d = [a, b, c, d] := by
  rcases l with _ | ⟨x0, _ | ⟨x1, _ | ⟨x2, _ | ⟨x3, _ | ⟨x4, t⟩⟩⟩⟩⟩ <;>
    simp_all [List.set]

/-- Writing every slot of a length-5 vector yields the written values. -/
theorem set_all_five (l : List ℚ) (hl : l.length = 5) (a b c d e : ℚ) :
    ((((l.set 0 a).set 1 b).set 2 c).set 3 d).set 4 e = [a, b, c, d, e] := by
  rcases l with _ | ⟨x0, _ | ⟨x1, _ | ⟨x2, _ | ⟨x3, _ | ⟨x4, _ | ⟨x5, t⟩⟩⟩⟩⟩⟩ <;>
    simp_all [List.set]

/-- `CameraModelInitializeParams` evaluated on the pinhole variant. -/
theorem initializeParams_zero (f : ℚ) (w h : Nat) (params : List ℚ) :
    CameraModelInitializeParams 0 f w h params =
      { invalid_model := false
        params := [f, f, (w : ℚ) / 2, (h : ℚ) / 2] } :=
  congrArg (InitializeParamsResult.mk false)
    (set_all_four (resizeParams params 4) (resizeParams_length params 4)
      f f _ _)

/-- `CameraModelInitializeParams` evaluated on the simple pinhole variant. -/
theorem initializeParams_one (f : ℚ) (w h : Nat) (params : List ℚ) :
    CameraModelInitializeParams 1 f w h params =
      { invalid_model := false
        params := [f, (w : ℚ) / 2, (h : ℚ) / 2] } :=
  congrArg (InitializeParamsResult.mk false)
    (set_all_three (resizeParams params 3) (resizeParams_length params 3)
      f _ _)

/-- `CameraModelInitializeParams` evaluated on the radial variant. -/
theorem initializeParams_two (f : ℚ) (w h : Nat) (params : List ℚ) :
    CameraModelInitializeParams 2 f w h params =
      { invalid_model := false
        params := [f, f, (w : ℚ) / 2, (h : ℚ) / 2, 0] } :=
  congrArg (InitializeParamsResult.mk false)
    (set_all_five (resizeParams params 5) (resizeParams_length params 5)
      f f _ _ _)

/-- On an unregistered id the Initializer hits the spec-modelled
`InvalidModel` default before any case body executes: the failure is
signalled and the caller's vector is still the one passed in. -/
theorem initializeParams_of_not_registered (model_id : Int)
    (hreg : isRegisteredModelId model_id = false) (focal_length : ℚ)
    (width height : Nat) (params : List ℚ) :
    CameraModelInitializeParams model_id focal_length width height params =
      { invalid_model := true, params := params } := by
  unfold CameraModelInitializeParams
  unfold isRegisteredModelId at hreg
  cases hfind : findCameraModel model_id with
  | none => rfl
  | some m => rw [hfind] at hreg; simp at hreg

/-! ### Claims -/

/-- C1: for every model_id that does not match any registered camera model
variant, `CameraModelInitializeParams` fails with the `InvalidModel`
condition — a hard, loud failure — rather than silently returning with an
improperly sized or unchanged parameter vector. -/
theorem C1_initialize_unknown_fails (model_id : Int)
    (hreg : isRegisteredModelId model_id = false) (focal_length : ℚ)
    (width height : Nat) (params : List ℚ) :
    (CameraModelInitializeParams model_id focal_length width height
        params).invalid_model = true := by
  rw [initializeParams_of_not_registered model_id hreg focal_length width
    height params]

/-- C1 witness: the `InvalidModel` failure raised at the unregistered
id 9. -/
theorem C1_initialize_unknown_fails_witness :
    (CameraModelInitializeParams 9 100 640 480 [3, 4]).invalid_model =
      true :=
  C1_initialize_unknown_fails 9 rfl 100 640 480 [3, 4]

/-- C2 counterexample: at the unregistered id 7, `CameraModelParamsInfo`
returns the non-empty fall-through string `"Camera model does not exist"`,
not the empty string the claim asserts. -/
theorem C2_params_info_counterexample :
    isRegisteredModelId 7 = false ∧
      CameraModelParamsInfo 7 = "Camera model does not exist" ∧
      CameraModelParamsInfo 7 ≠ "" :=
  ⟨rfl, rfl, by decide⟩

/-- C2 (amended): for every model_id that is not a registered variant,
`CameraModelParamsInfo` returns the fixed sentinel string
`"Camera model does not exist"` (not the empty string), and the three idx
lookups each return the empty sequence. -/
theorem C2_unknown_lookup_results (model_id : Int)
    (hreg : isRegisteredModelId model_id = false) :
    CameraModelParamsInfo model_id = "Camera model does not exist"
    ∧ CameraModelFocalLengthIdxs model_id = []
    ∧ CameraModelPrincipalPointIdxs model_id = []
    ∧ CameraModelExtraParamsIdxs model_id = [] := by
  unfold isRegisteredModelId at hreg
  cases hfind : findCameraModel model_id with
  | some m => rw [hfind] at hreg; simp at hreg
  | none =>
      unfold CameraModelParamsInfo CameraModelFocalLengthIdxs
        CameraModelPrincipalPointIdxs CameraModelExtraParamsIdxs
      rw [hfind]
      exact ⟨rfl, rfl, rfl, rfl⟩

/-- C2 witness: the amended claim applied at the unregistered id 11. -/
theorem C2_unknown_lookup_results_witness :
    CameraModelParamsInfo 11 = "Camera model does not exist"
    ∧ CameraModelFocalLengthIdxs 11 = []
    ∧ CameraModelPrincipalPointIdxs 11 = []
    ∧ CameraModelExtraParamsIdxs 11 = [] :=
  C2_unknown_lookup_results 11 rfl

/-- C3: `CameraModelVerifyParams(model_id, params)` is true iff `model_id`
is a registered variant and `params` has exactly that variant's
`num_params` entries; moreover it depends only on the length of `params`,
never on the parameter values themselves. -/
theorem C3_verify_params_spec (model_id : Int) (params : List ℚ) :
    (CameraModelVerifyParams model_id params = true ↔
      ∃ m ∈ CAMERA_MODELS, m.model_id = model_id ∧
        params.length = m.num_params)
    ∧ ∀ params2 : List ℚ, params.length = params2.length →
        CameraModelVerifyParams model_id params =
          CameraModelVerifyParams model_id params2 := by
  constructor
  · unfold CameraModelVerifyParams
    rw [findCameraModel_eq]
    by_cases h0 : model_id = 0
    · subst h0
      simp [CAMERA_MODELS, PinholeCameraModel, SimplePinholeCameraModel,
        RadialCameraModel]
    · by_cases h1 : model_id = 1
      · subst h1
        simp [CAMERA_MODELS, PinholeCameraModel, SimplePinholeCameraModel,
          RadialCameraModel]
      · by_cases h2 : model_id = 2
        · subst h2
          simp [CAMERA_MODELS, PinholeCameraModel, SimplePinholeCameraModel,
            RadialCameraModel]
        · rw [if_neg h0, if_neg h1, if_neg h2]
          simp only [Bool.false_eq_true, false_iff, not_exists]
          rintro m ⟨hm, hid, -⟩
          rcases mem_camera_models_cases hm with rfl | rfl | rfl <;>
            first
              | exact h0 hid.symm
              | exact h1 hid.symm
              | exact h2 hid.symm
  · intro params2 hlen
    unfold CameraModelVerifyParams
    cases hfind : findCameraModel model_id with
    | none => rfl
    | some m => simp [hlen]

/-- C3 witness: `VerifyParams` at id 0 gives the same verdict on two
different length-4 vectors, as only the length is inspected. -/
theorem C3_verify_params_spec_witness :
    CameraModelVerifyParams 0 [1, 2, 3, 4] =
      CameraModelVerifyParams 0 [5, 6, 7, 8] :=
  (C3_verify_params_spec 0 [1, 2, 3, 4]).2 [5, 6, 7, 8] rfl

/-- C4: for every registered variant and positive focal length guess and
image dimensions, the initialized vector has length `num_params`, holds the
focal length guess at every focal-length index, `width / 2` at the first
principal-point index, `height / 2` at the second, and zero at every
extra-params index. -/
theorem C4_initialize_params_layout (m : CameraModel)
    (hm : m ∈ CAMERA_MODELS) (focal_length : ℚ) (width height : Nat)
    (params : List ℚ) (hf : 0 < focal_length) (hw : 0 < width)
    (hh : 0 < height) :
    (CameraModelInitializeParams m.model_id focal_length width height
        params).params.length = m.num_params
    ∧ (∀ idx ∈ m.focal_length_idxs,
        (CameraModelInitializeParams m.model_id focal_length width height
            params).params.getD idx 0 = focal_length)
    ∧ (CameraModelInitializeParams m.model_id focal_length width height
          params).params.getD (m.principal_point_idxs.getD 0 0) 0 =
        (width : ℚ) / 2
    ∧ (CameraModelInitializeParams m.model_id focal_length width height
          params).params.getD (m.principal_point_idxs.getD 1 0) 0 =
        (height : ℚ) / 2
    ∧ (∀ idx ∈ m.extra_params_idxs,
        (CameraModelInitializeParams m.model_id focal_length width height
            params).params.getD idx 0 = 0) := by
  rcases mem_camera_models_cases hm with rfl | rfl | rfl
  · rw [show PinholeCameraModel.model_id = (0 : Int) from rfl,
      initializeParams_zero]
    refine ⟨rfl, ?_, rfl, rfl, ?_⟩
    · intro idx hidx
      rcases (show idx = 0 ∨ idx = 1 by
        simpa [PinholeCameraModel] using hidx) with rfl | rfl <;> rfl
    · intro idx hidx
      simp [PinholeCameraModel] at hidx
  · rw [show SimplePinholeCameraModel.model_id = (1 : Int) from rfl,
      initializeParams_one]
    refine ⟨rfl, ?_, rfl, rfl, ?_⟩
    · intro idx hidx
      rcases (show idx = 0 by
        simpa [SimplePinholeCameraModel] using hidx) with rfl
      rfl
    · intro idx hidx
      simp [SimplePinholeCameraModel] at hidx
  · rw [show RadialCameraModel.model_id = (2 : Int) from rfl,
      initializeParams_two]
    refine ⟨rfl, ?_, rfl, rfl, ?_⟩
    · intro idx hidx
      rcases (show idx = 0 ∨ idx = 1 by
        simpa [RadialCameraModel] using hidx) with rfl | rfl <;> rfl
    · intro idx hidx
      rcases (show idx = 4 by
        simpa [RadialCameraModel] using hidx) with rfl
      rfl

/-- C4 witness: the pinhole variant initialized at focal length 100 on a
640x480 image yields a vector of its 4 parameters. -/
theorem C4_initialize_params_layout_witness :
    (CameraModelInitializeParams 0 100 640 480 []).params.length = 4 :=
  (C4_initialize_params_layout PinholeCameraModel (by decide) 100 640 480 []
    (by decide) (by decide) (by decide)).1

/-- C5: on every registered variant the name and id lookups are mutually
inverse. -/
theorem C5_name_id_round_trip (m : CameraModel) (hm : m ∈ CAMERA_MODELS) :
    CameraModelNameToId (CameraModelIdToName m.model_id) = m.model_id
    ∧ CameraModelIdToName (CameraModelNameToId m.model_name) =
        m.model_name := by
  rcases mem_camera_models_cases hm with rfl | rfl | rfl <;>
    exact ⟨by decide, by decide⟩

/-- C5 witness: the round trips evaluated on the pinhole variant. -/
theorem C5_name_id_round_trip_witness :
    CameraModelNameToId (CameraModelIdToName 0) = 0
    ∧ CameraModelIdToName (CameraModelNameToId "PINHOLE") = "PINHOLE" :=
  C5_name_id_round_trip PinholeCameraModel (by decide)

/-- C6: a parameter vector produced by `CameraModelInitializeParams` for a
registered variant always passes `CameraModelVerifyParams` for that
variant. -/
theorem C6_verify_initialize (m : CameraModel) (hm : m ∈ CAMERA_MODELS)
    (focal_length : ℚ) (width height : Nat) (params : List ℚ)
    (hf : 0 < focal_length) (hw : 0 < width) (hh : 0 < height) :
    CameraModelVerifyParams m.model_id
      (CameraModelInitializeParams m.model_id focal_length width height
        params).params = true := by
  rcases mem_camera_models_cases hm with rfl | rfl | rfl
  · rw [show PinholeCameraModel.model_id = (0 : Int) from rfl,
      initializeParams_zero]
    rfl
  · rw [show SimplePinholeCameraModel.model_id = (1 : Int) from rfl,
      initializeParams_one]
    rfl
  · rw [show RadialCameraModel.model_id = (2 : Int) from rfl,
      initializeParams_two]
    rfl

/-- C6 witness: verification of a freshly initialized pinhole vector. -/
theorem C6_verify_initialize_witness :
    CameraModelVerifyParams 0
      (CameraModelInitializeParams 0 100 640 480 []).params = true :=
  C6_verify_initialize PinholeCameraModel (by decide) 100 640 480 []
    (by decide) (by decide) (by decide)

/-- C7: `CameraModelNameToId` maps each registered name (exact,
case-sensitive match) to its id and every other string to
`kInvalidCameraModelId`; `CameraModelIdToName` maps each registered id to
its name and every other id to the sentinel `"INVALID_CAMERA_MODEL"`. -/
theorem C7_name_id_sentinels :
    (∀ m ∈ CAMERA_MODELS, CameraModelNameToId m.model_name = m.model_id)
    ∧ (∀ name : String, (∀ m ∈ CAMERA_MODELS, m.model_name ≠ name) →
        CameraModelNameToId name = kInvalidCameraModelId)
    ∧ (∀ m ∈ CAMERA_MODELS, CameraModelIdToName m.model_id = m.model_name)
    ∧ (∀ model_id : Int, (∀ m ∈ CAMERA_MODELS, m.model_id ≠ model_id) →
        CameraModelIdToName model_id = "INVALID_CAMERA_MODEL") := by
  refine ⟨?_, ?_, ?_, ?_⟩
  · intro m hm
    rcases mem_camera_models_cases hm with rfl | rfl | rfl <;> decide
  · intro name hname
    unfold CameraModelNameToId
    have hnone :
        CAMERA_MODELS.find? (fun m => m.model_name == name) = none := by
      rw [List.find?_eq_none]
      intro m hm
      simp [hname m hm]
    rw [hnone]
  · intro m hm
    rcases mem_camera_models_cases hm with rfl | rfl | rfl <;> decide
  · intro model_id hid
    unfold CameraModelIdToName findCameraModel
    have hnone :
        CAMERA_MODELS.find? (fun m => m.model_id == model_id) = none := by
      rw [List.find?_eq_none]
      intro m hm
      simp [hid m hm]
    rw [hnone]

/-- C7 witness: the lookups evaluated on a registered name and on an
unregistered id. -/
theorem C7_name_id_sentinels_witness :
    CameraModelNameToId "PINHOLE" = 0
    ∧ CameraModelIdToName (-5) = "INVALID_CAMERA_MODEL" :=
  ⟨C7_name_id_sentinels.1 PinholeCameraModel (by decide),
    C7_name_id_sentinels.2.2.2 (-5) (by decide)⟩

/-- C8: for every unregistered model_id, `CameraModelHasBogusParams` falls
through the switch and returns false, whatever the parameter vector, image
dimensions and thresholds. -/
theorem C8_has_bogus_unknown (model_id : Int)
    (hreg : isRegisteredModelId model_id = false) (params : List ℚ)
    (width height : Nat) (min_focal_length_ratio : ℚ)
    (max_focal_length_ratio : ℚ) (max_extra_param : ℚ) :
    CameraModelHasBogusParams model_id params width height
      min_focal_length_ratio max_focal_length_ratio max_extra_param =
        false := by
  unfold CameraModelHasBogusParams
  unfold isRegisteredModelId at hreg
  cases hfind : findCameraModel model_id with
  | none => rfl
  | some m => rw [hfind] at hreg; simp at hreg

/-- C8 witness: the plausibility check at the unregistered id 7. -/
theorem C8_has_bogus_unknown_witness :
    CameraModelHasBogusParams 7 [1, 2] 640 480 1 2 1 = false :=
  C8_has_bogus_unknown 7 rfl [1, 2] 640 480 1 2 1

/-- C9: for a registered variant and a correctly sized parameter vector,
`CameraModelHasBogusParams` is true exactly when some focal-length slot
divided by `max(width, height)` leaves the configured ratio bounds or some
extra-params slot exceeds `max_extra_param` in absolute value. -/
theorem C9_has_bogus_spec (m : CameraModel) (hm : m ∈ CAMERA_MODELS)
    (params : List ℚ) (hlen : params.length = m.num_params)
    (width height : Nat) (min_focal_length_ratio : ℚ)
    (max_focal_length_ratio : ℚ) (max_extra_param : ℚ) :
    CameraModelHasBogusParams m.model_id params width height
        min_focal_length_ratio max_focal_length_ratio max_extra_param =
          true ↔
      ((∃ idx ∈ m.focal_length_idxs,
          params.getD idx 0 / ((Nat.max width height : Nat) : ℚ) <
              min_focal_length_ratio ∨
            max_focal_length_ratio <
              params.getD idx 0 / ((Nat.max width height : Nat) : ℚ))
        ∨ ∃ idx ∈ m.extra_params_idxs,
            max_extra_param < |params.getD idx 0|) := by
  unfold CameraModelHasBogusParams
  rw [findCameraModel_self hm]
  simp [modelHasBogusParams, List.any_eq_true]

/-- C9 witness: the characterization applied to the radial variant with a
correctly sized vector. -/
theorem C9_has_bogus_spec_witness :
    CameraModelHasBogusParams RadialCameraModel.model_id [1, 1, 1, 1, 5]
        640 480 (1 / 10) 2 1 = true ↔
      ((∃ idx ∈ RadialCameraModel.focal_length_idxs,
          ([1, 1, 1, 1, 5] : List ℚ).getD idx 0 /
              ((Nat.max 640 480 : Nat) : ℚ) < 1 / 10 ∨
            2 < ([1, 1, 1, 1, 5] : List ℚ).getD idx 0 /
              ((Nat.max 640 480 : Nat) : ℚ))
        ∨ ∃ idx ∈ RadialCameraModel.extra_params_idxs,
            1 < |([1, 1, 1, 1, 5] : List ℚ).getD idx 0|) :=
  C9_has_bogus_spec RadialCameraModel (by decide) [1, 1, 1, 1, 5] rfl
    640 480 (1 / 10) 2 1

/-- C10: for every unregistered model_id, `CameraModelInitializeParams`
leaves the caller-supplied vector completely untouched: the `InvalidModel`
failure fires at the switch default, before any case body, so the vector is
not resized and no element of it is written. -/
theorem C10_initialize_unknown_untouched (model_id : Int)
    (hreg : isRegisteredModelId model_id = false) (focal_length : ℚ)
    (width height : Nat) (params : List ℚ) :
    (CameraModelInitializeParams model_id focal_length width height
        params).params.length = params.length
    ∧ ∀ idx : Nat,
        (CameraModelInitializeParams model_id focal_length width height
            params).params.getD idx 0 = params.getD idx 0 := by
  rw [initializeParams_of_not_registered model_id hreg focal_length width
    height params]
  exact ⟨rfl, fun idx => rfl⟩

/-- C10 witness: the vector length at the unregistered id 7 is preserved. -/
theorem C10_initialize_unknown_untouched_witness :
    (CameraModelInitializeParams 7 100 640 480 [1, 2, 3]).params.length =
      3 :=
  (C10_initialize_unknown_untouched 7 rfl 100 640 480 [1, 2, 3]).1

end Colmap
